import Mathlib

/-!
Shallow embedding of the update-orchestration engine of `src/updater.rs`
(package-manager registry, security validator, process runner, run loop,
cancellation flag), together with theorems settling the specification
claims about it.

External effects (process spawning, pipe draining, the atomic `running`
flag read by the loop) are modelled by explicit oracles:
`SpawnOutcome` describes what the operating system did for one spawn
attempt, and an `Option Nat` stop index describes from which loop
iteration onwards the atomic flag reads `false` (a concurrent `stop()`
having flipped it).  Everything else is translated directly from the
Rust source.
-/

namespace Uptodate

/-- Events sent on the update channel; mirrors `enum UpdateEvent` in
`src/updater.rs`. -/
inductive UpdateEvent where
  | Started : UpdateEvent
  | Progress : String → UpdateEvent
  | SourceStarted : String → UpdateEvent
  | SourceProgress : String → String → UpdateEvent
  | SourceCompleted : String → Bool → UpdateEvent
  | SourceError : String → String → UpdateEvent
  | Completed : Bool → UpdateEvent
  | Error : String → UpdateEvent
deriving DecidableEq

/-- Mirrors `struct PackageManager` in `src/updater.rs`. -/
structure PackageManager where
  description : String
  check_cmd : List String
  update_cmd : List String
  needs_sudo : Bool
  name : String
deriving DecidableEq

/-- Mirrors `PackageManager::new` (argument order name, check, update,
sudo, description). -/
def PackageManager.new (name : String) (check : List String)
    (update : List String) (sudoFlag : Bool) (desc : String) : PackageManager :=
  { description := desc, check_cmd := check, update_cmd := update,
    needs_sudo := sudoFlag, name := name }

/-- Substring containment on character lists, used to model Rust
`str::contains` with a string pattern (true iff the pattern occurs
contiguously). -/
def charsContain : List Char → List Char → Bool
  | s, pat =>
    if pat.isPrefixOf s then true
    else
      match s with
      | [] => false
      | _ :: rest => charsContain rest pat

/-- Rust `arg.contains(pat)` for string patterns. -/
def strContains (s pat : String) : Bool :=
  charsContain s.toList pat.toList

/-- Mirrors `const ALLOWED_MANAGERS` in `src/updater.rs`. -/
def ALLOWED_MANAGERS : List String :=
  ["paru", "apt", "dnf", "zypper", "apk", "flatpak", "snap", "pipx",
   "npm", "rustup", "brew"]

/-- Mirrors `validate_manager_security`: only allow-listed manager names
may execute; the error is the anyhow message string. -/
def validate_manager_security (manager : PackageManager) :
    Except String Unit :=
  if ALLOWED_MANAGERS.contains manager.name then Except.ok ()
  else
    Except.error ("Unauthorized package manager: " ++ manager.name ++
      ". Only trusted managers are allowed.")

/-- Structured form of the three argument-validation failures of
`validate_command_args` (the Rust code returns anyhow errors; the
message text is recovered by `validationErrorMessage`). -/
inductive ValidationError where
  | injectionPattern : String → ValidationError
  | dangerousRedirect : String → ValidationError
  | argumentTooLong : Nat → ValidationError
deriving DecidableEq

/-- The anyhow message attached to each validation failure in
`validate_command_args`. -/
def validationErrorMessage : ValidationError → String
  | ValidationError.injectionPattern arg =>
      "Invalid argument pattern detected: '" ++ arg ++
        "'. Command injection patterns not allowed"
  | ValidationError.dangerousRedirect arg =>
      "Dangerous file redirection detected: '" ++ arg ++ "'"
  | ValidationError.argumentTooLong n =>
      "Argument too long (potential buffer overflow): " ++ toString n ++
        " characters"

/-- The command-injection condition of `validate_command_args`: the
argument contains two ampersands, two vertical bars, a semicolon, or a
backtick (written below by its hex escape). -/
def hasInjectionPattern (arg : String) : Bool :=
  strContains arg "&&" || strContains arg "||" || strContains arg ";" ||
    strContains arg "\x60"

/-- The dangerous-redirection condition of `validate_command_args`:
`arg.contains("> /dev/") || arg.contains(">> /dev/")`. -/
def hasDangerousRedirect (arg : String) : Bool :=
  strContains arg "> /dev/" || strContains arg ">> /dev/"

/-- Mirrors `validate_command_args`: for each argument in order, check
injection patterns, then dangerous redirection, then the 1000-byte
length ceiling (`arg.len()` in Rust is the UTF-8 byte count); the first
violation found is returned. -/
def validate_command_args : List String → Except ValidationError Unit
  | [] => Except.ok ()
  | arg :: rest =>
    if hasInjectionPattern arg then
      Except.error (ValidationError.injectionPattern arg)
    else if hasDangerousRedirect arg then
      Except.error (ValidationError.dangerousRedirect arg)
    else if 1000 < arg.utf8ByteSize then
      Except.error (ValidationError.argumentTooLong arg.utf8ByteSize)
    else validate_command_args rest

/-! The registry catalog built by `Updater::init_managers`.  Each entry
is a named definition so that theorems can refer to individual
descriptors. -/

def paru_manager : PackageManager :=
  PackageManager.new "paru" ["paru", "-Qu"] ["paru", "-Syu", "--noconfirm"]
    true "System packages"

def apt_manager : PackageManager :=
  PackageManager.new "apt" ["apt", "list", "--upgradable"]
    ["sh", "-c", "apt update && apt upgrade -y"] true "System packages"

def dnf_manager : PackageManager :=
  PackageManager.new "dnf" ["dnf", "check-update"] ["dnf", "upgrade", "-y"]
    true "System packages"

def zypper_manager : PackageManager :=
  PackageManager.new "zypper" ["zypper", "list-updates"]
    ["zypper", "update", "-y"] true "System packages"

def apk_manager : PackageManager :=
  PackageManager.new "apk" ["apk", "list", "--upgradable"]
    ["sh", "-c", "apk update && apk upgrade"] true "System packages"

def flatpak_manager : PackageManager :=
  PackageManager.new "flatpak" ["flatpak", "remote-ls", "--updates"]
    ["flatpak", "update", "-y"] false "Flatpak applications"

def snap_manager : PackageManager :=
  PackageManager.new "snap" ["snap", "refresh", "--list"]
    ["snap", "refresh"] true "Snap packages"

/-- The `sh -c` script of the pipx update command. -/
def pipx_update_script : String :=
  "if command -v pipx >/dev/null 2>&1; then pipx upgrade-all; else pipx list --outdated --format=freeze | cut -d= -f1 | xargs -r pipx install --user --upgrade; fi"

def pipx_manager : PackageManager :=
  PackageManager.new "pipx" ["pipx", "list", "--outdated"]
    ["sh", "-c", pipx_update_script] false "Python packages"

/-- The `sh -c` script of the npm update command. -/
def npm_update_script : String :=
  "if [ -w \"$(npm config get prefix)\" ]; then npm update -g; else echo 'Note: npm global updates need write permissions. Consider using a Node version manager like nvm.'; fi"

def npm_manager : PackageManager :=
  PackageManager.new "npm" ["npm", "outdated", "-g"]
    ["sh", "-c", npm_update_script] false "Node.js packages"

def rustup_manager : PackageManager :=
  PackageManager.new "rustup" ["rustup", "check"] ["rustup", "update"]
    false "Rust toolchain"

def brew_manager : PackageManager :=
  PackageManager.new "brew" ["brew", "outdated"]
    ["sh", "-c", "brew update && brew upgrade"] false "Homebrew packages"

/-- The catalog inserted by `init_managers`, in source order. -/
def init_managers : List PackageManager :=
  [paru_manager, apt_manager, dnf_manager, zypper_manager, apk_manager,
   flatpak_manager, snap_manager, pipx_manager, npm_manager,
   rustup_manager, brew_manager]

/-- Lookup in the `managers` HashMap (keyed by `manager.name`); catalog
names are pairwise distinct, so first-match lookup over the insertion
list agrees with the map. -/
def updaterManagers (name : String) : Option PackageManager :=
  init_managers.find? (fun m => m.name == name)

/-- Mirrors `Updater::get_manager_info`. -/
def get_manager_info (name : String) : Option PackageManager :=
  updaterManagers name

/-! ## Process runner (`Updater::run_command`) -/

/-- Oracle describing what the operating system did for one spawn
attempt: either `command.spawn()` failed with an error message, or a
child with a given pid was spawned, produced the given stdout and
stderr lines, and `child.status().await` yielded `some b` (exit
observed, `b` = zero-exit) or `none` (wait error; Rust maps it to
failure via `unwrap_or(false)`). -/
inductive SpawnOutcome where
  | spawnFail : String → SpawnOutcome
  | spawned : Nat → List String → List String → Option Bool → SpawnOutcome
deriving DecidableEq

/-- Rust `line.trim().is_empty()`: true iff every character of the line
is whitespace (trimming both ends leaves nothing). -/
def trimIsEmpty (line : String) : Bool :=
  line.toList.all Char.isWhitespace

/-- The stdout drain task: every line with non-empty trim becomes a
`SourceProgress` event, in stream order. -/
def stdoutEvents (name : String) : List String → List UpdateEvent
  | [] => []
  | line :: rest =>
    if trimIsEmpty line then stdoutEvents name rest
    else UpdateEvent.SourceProgress name line :: stdoutEvents name rest

/-- The stderr drain task's per-line classification: blank lines and
password-prompt lines are dropped; known informational markers are
reclassified as progress; everything else is a source error. -/
def classify_stderr_line (name line : String) : Option UpdateEvent :=
  if trimIsEmpty line then none
  else if strContains line "password" then none
  else if strContains line "up to date" || strContains line "Nothing to do"
      || strContains line "info:" then
    some (UpdateEvent.SourceProgress name line)
  else some (UpdateEvent.SourceError name line)

/-- The stderr drain task, in stream order. -/
def stderrEvents (name : String) : List String → List UpdateEvent
  | [] => []
  | line :: rest =>
    match classify_stderr_line name line with
    | none => stderrEvents name rest
    | some ev => ev :: stderrEvents name rest

/-- All line events of one child process.  The two drain tasks race, so
the real interleaving between the streams is nondeterministic; within
each stream the order is preserved.  We fix the canonical order stdout
then stderr — no claim below depends on the cross-stream interleaving. -/
def streamEvents (name : String) (outLines errLines : List String) :
    List UpdateEvent :=
  stdoutEvents name outLines ++ stderrEvents name errLines

/-- Result of one `run_command` call.  `pidsMid` is the shared
`child_pids` list right after the spawned pid is pushed (before any
output is consumed); `pidsEnd` is the list after the post-exit
`retain`; on paths that never spawn both equal the incoming list.
`spawned` records the pid and the argv actually handed to the OS
(`pkexec --user root sh -c <joined>` when elevation is requested,
otherwise the tokens themselves). -/
structure CmdResult where
  events : List UpdateEvent
  success : Bool
  pidsMid : List Nat
  pidsEnd : List Nat
  spawned : Option (Nat × List String)
deriving DecidableEq

/-- Mirrors `Updater::run_command`: validate the manager, then the
argument vector (each failure emits a `SourceError` and returns
failure before any spawn); build the invocation (pkexec wrapper when
`needs_sudo`); on spawn failure emit a generic `Error` and fail; on
spawn push the pid, emit the line events, take the exit status as the
success, and remove the pid. -/
def run_command (cmd : List String) (needs_sudo : Bool)
    (manager : PackageManager) (outcome : SpawnOutcome)
    (pids : List Nat) : CmdResult :=
  match validate_manager_security manager with
  | Except.error e =>
      { events := [UpdateEvent.SourceError manager.name e], success := false,
        pidsMid := pids, pidsEnd := pids, spawned := none }
  | Except.ok _ =>
    match validate_command_args cmd with
    | Except.error e =>
        { events := [UpdateEvent.SourceError manager.name
              (validationErrorMessage e)],
          success := false, pidsMid := pids, pidsEnd := pids,
          spawned := none }
    | Except.ok _ =>
      match outcome with
      | SpawnOutcome.spawnFail msg =>
          { events := [UpdateEvent.Error ("Failed to run " ++ manager.name ++
                ": " ++ msg)],
            success := false, pidsMid := pids, pidsEnd := pids,
            spawned := none }
      | SpawnOutcome.spawned pid outLines errLines exitStatus =>
          let invocation :=
            if needs_sudo then
              ["pkexec", "--user", "root", "sh", "-c",
               String.intercalate " " cmd]
            else cmd
          let mid := pids ++ [pid]
          { events := streamEvents manager.name outLines errLines,
            success := exitStatus.getD false,
            pidsMid := mid,
            pidsEnd := mid.filter (fun p => p != pid),
            spawned := some (pid, invocation) }

/-- Mirrors `Updater::check_updates`: the check command, with
`needs_sudo` hard-coded to `false`. -/
def check_updates (manager : PackageManager) (outcome : SpawnOutcome)
    (pids : List Nat) : CmdResult :=
  run_command manager.check_cmd false manager outcome pids

/-- Mirrors `Updater::run_update`: the update command with the
descriptor's own elevation flag. -/
def run_update (manager : PackageManager) (outcome : SpawnOutcome)
    (pids : List Nat) : CmdResult :=
  run_command manager.update_cmd manager.needs_sudo manager outcome pids

/-! ## Orchestrator (`Updater::run_updates`, `Updater::stop`) -/

/-- What the atomic `running` flag reads at the top of loop iteration
`i`: `stopIdx = none` means no concurrent `stop()` flips it during the
run; `stopIdx = some k` means the flip becomes visible before the
check of iteration `k` (the flag is monotone during one run — nothing
sets it back to `true`). -/
def flagRead (stopIdx : Option Nat) (i : Nat) : Bool :=
  match stopIdx with
  | none => true
  | some k => decide (i < k)

/-- Result of the spawned run-loop task: events sent on the channel
(between `Started` and `Completed`), the accumulated success flag, and
the final shared `child_pids` list. -/
structure LoopResult where
  events : List UpdateEvent
  success : Bool
  pids : List Nat
deriving DecidableEq

/-- The `for source in sources` loop inside `run_updates`: at each
element the flag is read (break when `false`); unknown names are
skipped silently; a known manager gets `SourceStarted`, runs its check
or update command depending on `dry_run`, the result is ANDed into the
accumulator, and `SourceCompleted` is sent.  `i` counts list positions
and indexes the spawn-outcome oracle and the stop index. -/
def run_loop (dry_run : Bool) (outcome : Nat → SpawnOutcome)
    (stopIdx : Option Nat) :
    List String → Nat → Bool → List Nat → LoopResult
  | [], _, acc, pids => { events := [], success := acc, pids := pids }
  | source :: rest, i, acc, pids =>
    if flagRead stopIdx i then
      match updaterManagers source with
      | none => run_loop dry_run outcome stopIdx rest (i + 1) acc pids
      | some m =>
        let r := if dry_run then check_updates m (outcome i) pids
                 else run_update m (outcome i) pids
        let t := run_loop dry_run outcome stopIdx rest (i + 1)
                   (acc && r.success) r.pidsEnd
        { events := UpdateEvent.SourceStarted m.name ::
            (r.events ++ UpdateEvent.SourceCompleted m.name r.success ::
              t.events),
          success := t.success, pids := t.pids }
    else { events := [], success := acc, pids := pids }

/-- The orchestrator's mutable state: the atomic `running` flag and the
shared `child_pids` list. -/
structure UpdaterState where
  running : Bool
  child_pids : List Nat

/-- Outcome of one `run_updates` call: the synchronous result
(`AlreadyRunning` rejection or acceptance), the full event stream of
the run, and the state after the spawned task finishes (for a rejected
call, the unchanged input state). -/
structure RunResult where
  result : Except String Unit
  events : List UpdateEvent
  final : UpdaterState

/-- Mirrors `Updater::run_updates` plus the spawned task it starts: a
call while `running` is rejected with no event and no state change;
otherwise the flag is set, `Started` is sent, the loop runs over the
selection, the flag is cleared and `Completed` carries the accumulated
success. -/
def run_updates (st : UpdaterState) (sources : List String)
    (dry_run : Bool) (outcome : Nat → SpawnOutcome)
    (stopIdx : Option Nat) : RunResult :=
  if st.running then
    { result := Except.error "Updates already running", events := [],
      final := st }
  else
    let r := run_loop dry_run outcome stopIdx sources 0 true st.child_pids
    { result := Except.ok (),
      events := UpdateEvent.Started ::
        (r.events ++ [UpdateEvent.Completed r.success]),
      final := { running := false, child_pids := r.pids } }

/-- Mirrors `Updater::stop`: when running, clear the flag and send
SIGINT to every tracked pid (returned as the second component); when
idle, a no-op. -/
def stop (st : UpdaterState) : UpdaterState × List Nat :=
  if st.running then ({ running := false, child_pids := st.child_pids },
    st.child_pids)
  else (st, [])

/-! ## Derived notions and helper lemmas -/

/-- The success bit of one `run_command` call, which depends only on the
validations and the spawn outcome (not on the shared pid list nor the
elevation flag). -/
def cmdSuccess (cmd : List String) (manager : PackageManager)
    (outcome : SpawnOutcome) : Bool :=
  match validate_manager_security manager with
  | Except.error _ => false
  | Except.ok _ =>
    match validate_command_args cmd with
    | Except.error _ => false
    | Except.ok _ =>
      match outcome with
      | SpawnOutcome.spawnFail _ => false
      | SpawnOutcome.spawned _ _ _ exitStatus => exitStatus.getD false

/-- Per-source success bits of the sources that actually execute (known
names, in order), used to state that the final `Completed` boolean is
their conjunction. -/
def loopSuccessList (dry_run : Bool) (outcome : Nat → SpawnOutcome) :
    List String → Nat → List Bool
  | [], _ => []
  | s :: rest, i =>
    match updaterManagers s with
    | none => loopSuccessList dry_run outcome rest (i + 1)
    | some m =>
        cmdSuccess (if dry_run then m.check_cmd else m.update_cmd) m
            (outcome i) ::
          loopSuccessList dry_run outcome rest (i + 1)

/-- Events a `run_command` call can emit: per-line progress or error
events and the generic spawn-failure `Error` — never the run-level
`Started`, `SourceStarted`, `SourceCompleted` or `Completed`. -/
def isLineLevelEvent : UpdateEvent → Bool
  | UpdateEvent.SourceProgress _ _ => true
  | UpdateEvent.SourceError _ _ => true
  | UpdateEvent.Error _ => true
  | _ => false

lemma run_command_success_eq (cmd : List String) (ns : Bool)
    (m : PackageManager) (o : SpawnOutcome) (pids : List Nat) :
    (run_command cmd ns m o pids).success = cmdSuccess cmd m o := by
  unfold run_command cmdSuccess
  cases validate_manager_security m with
  | error e => rfl
  | ok u =>
    cases validate_command_args cmd with
    | error e => rfl
    | ok u =>
      cases o with
      | spawnFail msg => rfl
      | spawned pid outL errL w => rfl

lemma classify_stderr_line_level (name line : String) (ev : UpdateEvent)
    (h : classify_stderr_line name line = some ev) :
    isLineLevelEvent ev = true := by
  unfold classify_stderr_line at h
  split at h
  · exact Option.noConfusion h
  · split at h
    · exact Option.noConfusion h
    · split at h
      · cases h; rfl
      · cases h; rfl

lemma stdoutEvents_line_level (name : String) :
    ∀ lines ev, ev ∈ stdoutEvents name lines → isLineLevelEvent ev = true := by
  intro lines
  induction lines with
  | nil => intro ev h; simp [stdoutEvents] at h
  | cons line rest ih =>
    intro ev h
    unfold stdoutEvents at h
    split at h
    · exact ih ev h
    · rcases List.mem_cons.mp h with h1 | h2
      · subst h1; rfl
      · exact ih ev h2

lemma stderrEvents_line_level (name : String) :
    ∀ lines ev, ev ∈ stderrEvents name lines → isLineLevelEvent ev = true := by
  intro lines
  induction lines with
  | nil => intro ev h; simp [stderrEvents] at h
  | cons line rest ih =>
    intro ev h
    unfold stderrEvents at h
    rcases hc : classify_stderr_line name line with _ | ev2
    · rw [hc] at h
      exact ih ev h
    · rw [hc] at h
      rcases List.mem_cons.mp h with h1 | h2
      · subst h1; exact classify_stderr_line_level name line ev hc
      · exact ih ev h2

lemma run_command_events_line_level (cmd : List String) (ns : Bool)
    (m : PackageManager) (o : SpawnOutcome) (pids : List Nat)
    (ev : UpdateEvent) (h : ev ∈ (run_command cmd ns m o pids).events) :
    isLineLevelEvent ev = true := by
  unfold run_command at h
  rcases hvm : validate_manager_security m with e | u
  · rw [hvm] at h
    simp only [List.mem_singleton] at h
    subst h; rfl
  · rw [hvm] at h
    rcases hva : validate_command_args cmd with e | u2
    · rw [hva] at h
      simp only [List.mem_singleton] at h
      subst h; rfl
    · rw [hva] at h
      rcases o with msg | ⟨pid, outL, errL, w⟩
      · simp only [List.mem_singleton] at h
        subst h; rfl
      · simp only [streamEvents, List.mem_append] at h
        rcases h with h | h
        · exact stdoutEvents_line_level m.name outL ev h
        · exact stderrEvents_line_level m.name errL ev h

lemma run_loop_nil (dry : Bool) (o : Nat → SpawnOutcome) (σ : Option Nat)
    (i : Nat) (acc : Bool) (pids : List Nat) :
    run_loop dry o σ [] i acc pids =
      { events := [], success := acc, pids := pids } := rfl

lemma run_loop_stopped (dry : Bool) (o : Nat → SpawnOutcome)
    (σ : Option Nat) (s : String) (rest : List String) (i : Nat)
    (acc : Bool) (pids : List Nat) (hf : flagRead σ i = false) :
    run_loop dry o σ (s :: rest) i acc pids =
      { events := [], success := acc, pids := pids } := by
  simp [run_loop, hf]

lemma run_loop_cons_unknown (dry : Bool) (o : Nat → SpawnOutcome)
    (σ : Option Nat) (s : String) (rest : List String) (i : Nat)
    (acc : Bool) (pids : List Nat) (hm : updaterManagers s = none)
    (hf : flagRead σ i = true) :
    run_loop dry o σ (s :: rest) i acc pids =
      run_loop dry o σ rest (i + 1) acc pids := by
  simp [run_loop, hm, hf]

lemma run_loop_cons_known (dry : Bool) (o : Nat → SpawnOutcome)
    (σ : Option Nat) (s : String) (rest : List String) (i : Nat)
    (acc : Bool) (pids : List Nat) (m : PackageManager) (r : CmdResult)
    (hm : updaterManagers s = some m) (hf : flagRead σ i = true)
    (hr : (if dry then check_updates m (o i) pids
           else run_update m (o i) pids) = r) :
    run_loop dry o σ (s :: rest) i acc pids =
      { events := UpdateEvent.SourceStarted m.name ::
          (r.events ++ UpdateEvent.SourceCompleted m.name r.success ::
            (run_loop dry o σ rest (i + 1) (acc && r.success) r.pidsEnd).events),
        success :=
          (run_loop dry o σ rest (i + 1) (acc && r.success) r.pidsEnd).success,
        pids :=
          (run_loop dry o σ rest (i + 1) (acc && r.success) r.pidsEnd).pids } := by
  subst hr
  simp [run_loop, hm, hf]

lemma run_loop_no_completed (dry : Bool) (o : Nat → SpawnOutcome)
    (σ : Option Nat) :
    ∀ sources i acc pids b,
      UpdateEvent.Completed b ∉ (run_loop dry o σ sources i acc pids).events := by
  intro sources
  induction sources with
  | nil => intro i acc pids b; rw [run_loop_nil]; simp
  | cons s rest ih =>
    intro i acc pids b
    cases hf : flagRead σ i with
    | false => rw [run_loop_stopped dry o σ s rest i acc pids hf]; simp
    | true =>
      rcases hm : updaterManagers s with _ | m
      · rw [run_loop_cons_unknown dry o σ s rest i acc pids hm hf]
        exact ih (i + 1) acc pids b
      · rw [run_loop_cons_known dry o σ s rest i acc pids m _ hm hf rfl]
        intro h
        rcases List.mem_cons.mp h with h1 | h2
        · exact UpdateEvent.noConfusion h1
        · rcases List.mem_append.mp h2 with h3 | h4
          · have hl : isLineLevelEvent (UpdateEvent.Completed b) = true := by
              cases dry with
              | true =>
                exact run_command_events_line_level m.check_cmd false m
                  (o i) pids _ h3
              | false =>
                exact run_command_events_line_level m.update_cmd
                  m.needs_sudo m (o i) pids _ h3
            exact Bool.noConfusion hl
          · rcases List.mem_cons.mp h4 with h5 | h6
            · exact UpdateEvent.noConfusion h5
            · exact ih (i + 1) _ _ b h6

lemma run_loop_success_eq (dry : Bool) (o : Nat → SpawnOutcome) :
    ∀ sources i acc pids,
      (run_loop dry o none sources i acc pids).success =
        (acc && (loopSuccessList dry o sources i).all id) := by
  intro sources
  induction sources with
  | nil =>
    intro i acc pids
    rw [run_loop_nil]
    simp [loopSuccessList]
  | cons s rest ih =>
    intro i acc pids
    have hf : flagRead none i = true := rfl
    rcases hm : updaterManagers s with _ | m
    · rw [run_loop_cons_unknown dry o none s rest i acc pids hm hf, ih]
      simp [loopSuccessList, hm]
    · rw [run_loop_cons_known dry o none s rest i acc pids m _ hm hf rfl]
      rw [ih]
      cases dry <;>
        simp [loopSuccessList, hm, check_updates, run_update,
          run_command_success_eq, Bool.and_assoc]

lemma run_loop_all_unknown (dry : Bool) (o : Nat → SpawnOutcome)
    (σ : Option Nat) :
    ∀ sources i acc pids, (∀ s ∈ sources, updaterManagers s = none) →
      run_loop dry o σ sources i acc pids =
        { events := [], success := acc, pids := pids } := by
  intro sources
  induction sources with
  | nil => intro i acc pids _; rw [run_loop_nil]
  | cons s rest ih =>
    intro i acc pids hall
    cases hf : flagRead σ i with
    | false => exact run_loop_stopped dry o σ s rest i acc pids hf
    | true =>
      have hm : updaterManagers s = none := hall s (List.mem_cons_self s rest)
      rw [run_loop_cons_unknown dry o σ s rest i acc pids hm hf]
      exact ih (i + 1) acc pids (fun x hx => hall x (List.mem_cons_of_mem s hx))

/-! ## Claim theorems -/

/-- C1: for every manager in {apt, apk, pipx, npm, brew}, a non-dry-run
update always fails without spawning any process: the registry's
built-in update command contains a token with two ampersands or a
semicolon, so `validate_command_args` rejects it, `run_command` emits a
`SourceError` and returns `false` (no spawn, pid list untouched), and
the run loop emits `SourceCompleted(id, false)` for that source, for
every possible spawn oracle. -/
theorem C1_builtin_shell_updates_always_rejected :
    ∀ (o : SpawnOutcome) (oo : Nat → SpawnOutcome) (pids : List Nat),
      (updaterManagers "apt" = some apt_manager ∧
        run_update apt_manager o pids =
          { events := [UpdateEvent.SourceError "apt" (validationErrorMessage
              (ValidationError.injectionPattern "apt update && apt upgrade -y"))],
            success := false, pidsMid := pids, pidsEnd := pids,
            spawned := none } ∧
        (run_updates { running := false, child_pids := pids } ["apt"] false
            oo none).events =
          [UpdateEvent.Started, UpdateEvent.SourceStarted "apt",
           UpdateEvent.SourceError "apt" (validationErrorMessage
             (ValidationError.injectionPattern "apt update && apt upgrade -y")),
           UpdateEvent.SourceCompleted "apt" false,
           UpdateEvent.Completed false]) ∧
      (updaterManagers "apk" = some apk_manager ∧
        run_update apk_manager o pids =
          { events := [UpdateEvent.SourceError "apk" (validationErrorMessage
              (ValidationError.injectionPattern "apk update && apk upgrade"))],
            success := false, pidsMid := pids, pidsEnd := pids,
            spawned := none } ∧
        (run_updates { running := false, child_pids := pids } ["apk"] false
            oo none).events =
          [UpdateEvent.Started, UpdateEvent.SourceStarted "apk",
           UpdateEvent.SourceError "apk" (validationErrorMessage
             (ValidationError.injectionPattern "apk update && apk upgrade")),
           UpdateEvent.SourceCompleted "apk" false,
           UpdateEvent.Completed false]) ∧
      (updaterManagers "pipx" = some pipx_manager ∧
        run_update pipx_manager o pids =
          { events := [UpdateEvent.SourceError "pipx" (validationErrorMessage
              (ValidationError.injectionPattern pipx_update_script))],
            success := false, pidsMid := pids, pidsEnd := pids,
            spawned := none } ∧
        (run_updates { running := false, child_pids := pids } ["pipx"] false
            oo none).events =
          [UpdateEvent.Started, UpdateEvent.SourceStarted "pipx",
           UpdateEvent.SourceError "pipx" (validationErrorMessage
             (ValidationError.injectionPattern pipx_update_script)),
           UpdateEvent.SourceCompleted "pipx" false,
           UpdateEvent.Completed false]) ∧
      (updaterManagers "npm" = some npm_manager ∧
        run_update npm_manager o pids =
          { events := [UpdateEvent.SourceError "npm" (validationErrorMessage
              (ValidationError.injectionPattern npm_update_script))],
            success := false, pidsMid := pids, pidsEnd := pids,
            spawned := none } ∧
        (run_updates { running := false, child_pids := pids } ["npm"] false
            oo none).events =
          [UpdateEvent.Started, UpdateEvent.SourceStarted "npm",
           UpdateEvent.SourceError "npm" (validationErrorMessage
             (ValidationError.injectionPattern npm_update_script)),
           UpdateEvent.SourceCompleted "npm" false,
           UpdateEvent.Completed false]) ∧
      (updaterManagers "brew" = some brew_manager ∧
        run_update brew_manager o pids =
          { events := [UpdateEvent.SourceError "brew" (validationErrorMessage
              (ValidationError.injectionPattern "brew update && brew upgrade"))],
            success := false, pidsMid := pids, pidsEnd := pids,
            spawned := none } ∧
        (run_updates { running := false, child_pids := pids } ["brew"] false
            oo none).events =
          [UpdateEvent.Started, UpdateEvent.SourceStarted "brew",
           UpdateEvent.SourceError "brew" (validationErrorMessage
             (ValidationError.injectionPattern "brew update && brew upgrade")),
           UpdateEvent.SourceCompleted "brew" false,
           UpdateEvent.Completed false]) :=
  fun _ _ _ =>
    ⟨⟨rfl, rfl, rfl⟩, ⟨rfl, rfl, rfl⟩, ⟨rfl, rfl, rfl⟩, ⟨rfl, rfl, rfl⟩,
     ⟨rfl, rfl, rfl⟩⟩

/-- C2 counterexample: the claim says a token containing a single pipe
(not part of two bars) makes `validateArguments` fail with
`InjectionPattern`; but the code never checks for a lone pipe, so the
vector with the single token containing one pipe validates
successfully. -/
theorem C2_counterexample_single_pipe_accepted :
    strContains "a|b" "|" = true ∧
    validate_command_args ["a|b"] = Except.ok () :=
  ⟨rfl, rfl⟩

/-- C2 amended: `validate_command_args` fails with `InjectionPattern`
only when some token contains two ampersands, two bars, a semicolon or
a backtick (a lone pipe is not among the rejected patterns); any vector
containing such a token fails validation; and a token whose only
metacharacter is a single pipe passes. -/
theorem C2_injection_check_characterization :
    (∀ args a, validate_command_args args =
        Except.error (ValidationError.injectionPattern a) →
      a ∈ args ∧ hasInjectionPattern a = true) ∧
    (∀ args a, a ∈ args → hasInjectionPattern a = true →
      validate_command_args args ≠ Except.ok ()) ∧
    validate_command_args ["a|b"] = Except.ok () := by
  refine ⟨?_, ?_, rfl⟩
  · intro args
    induction args with
    | nil =>
      intro a h
      simp [validate_command_args] at h
    | cons arg rest ih =>
      intro a h
      unfold validate_command_args at h
      by_cases h1 : hasInjectionPattern arg = true
      · rw [if_pos h1] at h
        simp only [Except.error.injEq, ValidationError.injectionPattern.injEq] at h
        subst h
        exact ⟨List.mem_cons_self arg rest, h1⟩
      · rw [if_neg h1] at h
        by_cases h2 : hasDangerousRedirect arg = true
        · rw [if_pos h2] at h
          simp at h
        · rw [if_neg h2] at h
          by_cases h3 : 1000 < arg.utf8ByteSize
          · rw [if_pos h3] at h
            simp at h
          · rw [if_neg h3] at h
            rcases ih a h with ⟨hmem, hinj⟩
            exact ⟨List.mem_cons_of_mem arg hmem, hinj⟩
  · intro args
    induction args with
    | nil =>
      intro a ha
      simp at ha
    | cons arg rest ih =>
      intro a ha hinj h
      unfold validate_command_args at h
      by_cases h1 : hasInjectionPattern arg = true
      · rw [if_pos h1] at h
        exact Except.noConfusion h
      · rw [if_neg h1] at h
        by_cases h2 : hasDangerousRedirect arg = true
        · rw [if_pos h2] at h
          exact Except.noConfusion h
        · rw [if_neg h2] at h
          by_cases h3 : 1000 < arg.utf8ByteSize
          · rw [if_pos h3] at h
            exact Except.noConfusion h
          · rw [if_neg h3] at h
            rcases List.mem_cons.mp ha with h4 | h5
            · subst h4
              exact h1 hinj
            · exact ih a h5 hinj h

/-- C2 witness: concrete instantiations of both directions of the
amended characterization. -/
theorem C2_injection_check_characterization_witness :
    ("a&&b" ∈ ["a&&b"] ∧ hasInjectionPattern "a&&b" = true) ∧
    validate_command_args ["echo", "x;y"] ≠ Except.ok () :=
  ⟨C2_injection_check_characterization.1 ["a&&b"] "a&&b" rfl,
   C2_injection_check_characterization.2.1 ["echo", "x;y"] "x;y"
     (by decide) (by decide)⟩

/-- C3 counterexample: with two known sources, a stop arriving after
source 1 (which succeeds) and before source 2, the stream is
`Started`, `SourceStarted`/`SourceCompleted` for source 1, then
`Completed(true)` — not the `Completed(false)` the claim requires. -/
theorem C3_counterexample_stop_preserves_first_success :
    run_updates { running := false, child_pids := [] } ["flatpak", "snap"]
        false (fun _ => SpawnOutcome.spawned 10 [] [] (some true))
        (some 1) =
      { result := Except.ok (),
        events := [UpdateEvent.Started, UpdateEvent.SourceStarted "flatpak",
          UpdateEvent.SourceCompleted "flatpak" true,
          UpdateEvent.Completed true],
        final := { running := false, child_pids := [] } } ∧
    UpdateEvent.Completed false ∉
      (run_updates { running := false, child_pids := [] } ["flatpak", "snap"]
        false (fun _ => SpawnOutcome.spawned 10 [] [] (some true))
        (some 1)).events ∧
    UpdateEvent.SourceStarted "snap" ∉
      (run_updates { running := false, child_pids := [] } ["flatpak", "snap"]
        false (fun _ => SpawnOutcome.spawned 10 [] [] (some true))
        (some 1)).events :=
  ⟨rfl, by decide, by decide⟩

/-- C3 amended: if the stop arrives after source 1 starts and before
source 2 starts, the stream contains `SourceStarted`/`SourceCompleted`
for source 1 only and source 2 is never started or reported; the final
`Completed` carries source 1's own success (the conjunction of the
sources that executed), not an unconditional `false`. -/
theorem C3_stop_skips_remaining_sources (s1 s2 : String)
    (rest : List String) (m1 : PackageManager) (dry : Bool)
    (o : Nat → SpawnOutcome) (pids : List Nat) (r : CmdResult)
    (hm : updaterManagers s1 = some m1)
    (hr : (if dry then check_updates m1 (o 0) pids
           else run_update m1 (o 0) pids) = r) :
    run_updates { running := false, child_pids := pids } (s1 :: s2 :: rest)
        dry o (some 1) =
      { result := Except.ok (),
        events := UpdateEvent.Started :: UpdateEvent.SourceStarted m1.name ::
          (r.events ++ [UpdateEvent.SourceCompleted m1.name r.success,
            UpdateEvent.Completed r.success]),
        final := { running := false, child_pids := r.pidsEnd } } ∧
    (∀ id, UpdateEvent.SourceStarted id ∈
        (run_updates { running := false, child_pids := pids }
          (s1 :: s2 :: rest) dry o (some 1)).events →
      id = m1.name) := by
  have hf0 : flagRead (some 1) 0 = true := rfl
  have hf1 : flagRead (some 1) 1 = false := rfl
  have hloop := run_loop_cons_known dry o (some 1) s1 (s2 :: rest) 0 true
    pids m1 r hm hf0 hr
  have hstop := run_loop_stopped dry o (some 1) s2 rest 1 r.success
    r.pidsEnd hf1
  have hmain : run_updates { running := false, child_pids := pids }
      (s1 :: s2 :: rest) dry o (some 1) =
      { result := Except.ok (),
        events := UpdateEvent.Started :: UpdateEvent.SourceStarted m1.name ::
          (r.events ++ [UpdateEvent.SourceCompleted m1.name r.success,
            UpdateEvent.Completed r.success]),
        final := { running := false, child_pids := r.pidsEnd } } := by
    simp [run_updates, hloop, hstop]
  refine ⟨hmain, ?_⟩
  intro id h
  rw [hmain] at h
  rcases List.mem_cons.mp h with h1 | h2
  · exact UpdateEvent.noConfusion h1
  rcases List.mem_cons.mp h2 with h3 | h4
  · simp only [UpdateEvent.SourceStarted.injEq] at h3
    exact h3
  rcases List.mem_append.mp h4 with h5 | h6
  · subst hr
    have hl : isLineLevelEvent (UpdateEvent.SourceStarted id) = true := by
      cases dry with
      | true =>
        exact run_command_events_line_level m1.check_cmd false m1 (o 0)
          pids _ h5
      | false =>
        exact run_command_events_line_level m1.update_cmd m1.needs_sudo m1
          (o 0) pids _ h5
    exact Bool.noConfusion hl
  · rcases List.mem_cons.mp h6 with h7 | h8
    · exact UpdateEvent.noConfusion h7
    · rcases List.mem_cons.mp h8 with h9 | h10
      · exact UpdateEvent.noConfusion h9
      · simp at h10

/-- C3 witness: the amended statement at a concrete run (stop index 1,
source 1 failing under the interrupt). -/
theorem C3_stop_skips_remaining_sources_witness :
    run_updates { running := false, child_pids := [] } ["flatpak", "snap"]
        false (fun _ => SpawnOutcome.spawned 11 [] [] (some false))
        (some 1) =
      { result := Except.ok (),
        events := [UpdateEvent.Started, UpdateEvent.SourceStarted "flatpak",
          UpdateEvent.SourceCompleted "flatpak" false,
          UpdateEvent.Completed false],
        final := { running := false, child_pids := [] } } :=
  (C3_stop_skips_remaining_sources "flatpak" "snap" [] flatpak_manager false
    (fun _ => SpawnOutcome.spawned 11 [] [] (some false)) []
    { events := [], success := false, pidsMid := [11], pidsEnd := [],
      spawned := some (11, ["flatpak", "update", "-y"]) }
    rfl rfl).1

/-- C4: a `run_updates` call made while the running flag is set is
rejected with `AlreadyRunning`, emits no event (no `Started`) and
leaves the whole state unchanged. -/
theorem C4_run_rejected_while_running (st : UpdaterState)
    (sources : List String) (dry : Bool) (o : Nat → SpawnOutcome)
    (σ : Option Nat) (h : st.running = true) :
    run_updates st sources dry o σ =
      { result := Except.error "Updates already running", events := [],
        final := st } := by
  unfold run_updates
  rw [if_pos h]

/-- C4 witness: the rejection at a concrete busy state. -/
theorem C4_run_rejected_while_running_witness :
    run_updates { running := true, child_pids := [5] } ["flatpak"] false
        (fun _ => SpawnOutcome.spawnFail "x") none =
      { result := Except.error "Updates already running", events := [],
        final := { running := true, child_pids := [5] } } :=
  C4_run_rejected_while_running { running := true, child_pids := [5] }
    ["flatpak"] false (fun _ => SpawnOutcome.spawnFail "x") none rfl

/-- C5: for a selected source present in the registry, the process
runner is invoked with the descriptor's check-command tokens (and no
elevation) when `dry_run` is true, and with the update-command tokens
(and the descriptor's elevation flag) when it is false — the loop step
is exactly `run_command` on those tokens, never the other pair. -/
theorem C5_dry_run_selects_check_command (m : PackageManager)
    (o : Nat → SpawnOutcome) (σ : Option Nat) (pids : List Nat) (i : Nat)
    (s : String) (rest : List String) (acc : Bool)
    (hm : updaterManagers s = some m) (hf : flagRead σ i = true) :
    check_updates m (o i) pids = run_command m.check_cmd false m (o i) pids ∧
    run_update m (o i) pids =
      run_command m.update_cmd m.needs_sudo m (o i) pids ∧
    (∀ r, run_command m.check_cmd false m (o i) pids = r →
      run_loop true o σ (s :: rest) i acc pids =
        { events := UpdateEvent.SourceStarted m.name ::
            (r.events ++ UpdateEvent.SourceCompleted m.name r.success ::
              (run_loop true o σ rest (i + 1) (acc && r.success)
                r.pidsEnd).events),
          success := (run_loop true o σ rest (i + 1) (acc && r.success)
            r.pidsEnd).success,
          pids := (run_loop true o σ rest (i + 1) (acc && r.success)
            r.pidsEnd).pids }) ∧
    (∀ r, run_command m.update_cmd m.needs_sudo m (o i) pids = r →
      run_loop false o σ (s :: rest) i acc pids =
        { events := UpdateEvent.SourceStarted m.name ::
            (r.events ++ UpdateEvent.SourceCompleted m.name r.success ::
              (run_loop false o σ rest (i + 1) (acc && r.success)
                r.pidsEnd).events),
          success := (run_loop false o σ rest (i + 1) (acc && r.success)
            r.pidsEnd).success,
          pids := (run_loop false o σ rest (i + 1) (acc && r.success)
            r.pidsEnd).pids }) := by
  refine ⟨rfl, rfl, ?_, ?_⟩
  · intro r hr
    exact run_loop_cons_known true o σ s rest i acc pids m r hm hf hr
  · intro r hr
    exact run_loop_cons_known false o σ s rest i acc pids m r hm hf hr

/-- C5 witness: concrete dry and non-dry singleton runs of the flatpak
source, showing the check command drives the dry run and the update
command the real run. -/
theorem C5_dry_run_selects_check_command_witness :
    run_loop true (fun _ => SpawnOutcome.spawned 3 ["line1"] [] (some true))
        none ["flatpak"] 0 true [] =
      { events := [UpdateEvent.SourceStarted "flatpak",
          UpdateEvent.SourceProgress "flatpak" "line1",
          UpdateEvent.SourceCompleted "flatpak" true],
        success := true, pids := [] } ∧
    run_loop false (fun _ => SpawnOutcome.spawned 3 [] [] (some true))
        none ["flatpak"] 0 true [] =
      { events := [UpdateEvent.SourceStarted "flatpak",
          UpdateEvent.SourceCompleted "flatpak" true],
        success := true, pids := [] } := by
  constructor
  · have h := (C5_dry_run_selects_check_command flatpak_manager
      (fun _ => SpawnOutcome.spawned 3 ["line1"] [] (some true)) none [] 0
      "flatpak" [] true rfl rfl).2.2.1
      (run_command flatpak_manager.check_cmd false flatpak_manager
        (SpawnOutcome.spawned 3 ["line1"] [] (some true)) []) rfl
    exact h
  · have h := (C5_dry_run_selects_check_command flatpak_manager
      (fun _ => SpawnOutcome.spawned 3 [] [] (some true)) none [] 0
      "flatpak" [] true rfl rfl).2.2.2
      (run_command flatpak_manager.update_cmd flatpak_manager.needs_sudo
        flatpak_manager (SpawnOutcome.spawned 3 [] [] (some true)) []) rfl
    exact h

/-- C6: for a run that is never stopped early, the boolean of the
single `Completed` event is the conjunction of the per-source success
bits of every source that executed (no other `Completed` appears in the
loop's events), and the empty selection yields exactly `Started` then
`Completed(true)`. -/
theorem C6_completed_is_conjunction_of_successes (st : UpdaterState)
    (sources : List String) (dry : Bool) (o : Nat → SpawnOutcome)
    (h : st.running = false) :
    (run_updates st sources dry o none).result = Except.ok () ∧
    (run_updates st sources dry o none).events =
      UpdateEvent.Started ::
        ((run_loop dry o none sources 0 true st.child_pids).events ++
          [UpdateEvent.Completed ((loopSuccessList dry o sources 0).all id)]) ∧
    (∀ b, UpdateEvent.Completed b ∉
      (run_loop dry o none sources 0 true st.child_pids).events) ∧
    (sources = [] → (run_updates st sources dry o none).events =
      [UpdateEvent.Started, UpdateEvent.Completed true]) := by
  have hs := run_loop_success_eq dry o sources 0 true st.child_pids
  refine ⟨?_, ?_, ?_, ?_⟩
  · simp [run_updates, h]
  · simp [run_updates, h, hs]
  · intro b
    exact run_loop_no_completed dry o none sources 0 true st.child_pids b
  · intro he
    subst he
    simp [run_updates, h, run_loop_nil]

/-- C6 witness: the empty selection at a concrete state gives exactly
`Started` then `Completed(true)`. -/
theorem C6_completed_is_conjunction_of_successes_witness :
    (run_updates { running := false, child_pids := [] } [] false
      (fun _ => SpawnOutcome.spawnFail "e") none).events =
      [UpdateEvent.Started, UpdateEvent.Completed true] :=
  (C6_completed_is_conjunction_of_successes
    { running := false, child_pids := [] } [] false
    (fun _ => SpawnOutcome.spawnFail "e") rfl).2.2.2 rfl

/-- C7: a selected id absent from the registry is silently skipped by
the loop (no event, no state change, no contribution to the result),
and a run whose whole selection is unknown ids produces exactly
`Started` then `Completed(true)`. -/
theorem C7_unknown_sources_silently_skipped (dry : Bool)
    (o : Nat → SpawnOutcome) (pids : List Nat) :
    (∀ s rest i acc, get_manager_info s = none →
      run_loop dry o none (s :: rest) i acc pids =
        run_loop dry o none rest (i + 1) acc pids) ∧
    (∀ sources, (∀ s ∈ sources, get_manager_info s = none) →
      run_updates { running := false, child_pids := pids } sources dry o
          none =
        { result := Except.ok (),
          events := [UpdateEvent.Started, UpdateEvent.Completed true],
          final := { running := false, child_pids := pids } }) := by
  constructor
  · intro s rest i acc hm
    exact run_loop_cons_unknown dry o none s rest i acc pids hm rfl
  · intro sources hall
    have hloop := run_loop_all_unknown dry o none sources 0 true pids hall
    simp [run_updates, hloop]

/-- C7 witness: the unknown-id skip and the all-unknown run at concrete
inputs. -/
theorem C7_unknown_sources_silently_skipped_witness :
    run_loop false (fun _ => SpawnOutcome.spawnFail "e") none
        ["unknown-id"] 0 true [] =
      run_loop false (fun _ => SpawnOutcome.spawnFail "e") none [] 1 true [] ∧
    run_updates { running := false, child_pids := [] } ["unknown-id"] false
        (fun _ => SpawnOutcome.spawnFail "e") none =
      { result := Except.ok (),
        events := [UpdateEvent.Started, UpdateEvent.Completed true],
        final := { running := false, child_pids := [] } } :=
  ⟨(C7_unknown_sources_silently_skipped false
      (fun _ => SpawnOutcome.spawnFail "e") []).1 "unknown-id" [] 0 true rfl,
   (C7_unknown_sources_silently_skipped false
      (fun _ => SpawnOutcome.spawnFail "e") []).2 ["unknown-id"]
     (by decide)⟩

/-- C8 counterexample: the claim requires a `DangerousRedirect` failure
for a raw-device redirect in any written form, giving the spaceless
form as an example; but the code only matches the spaced patterns, so
the spaceless token passes validation. -/
theorem C8_counterexample_spaceless_redirect_accepted :
    strContains ">/dev/sda" "/dev/" = true ∧
    validate_command_args ["echo", ">/dev/sda"] = Except.ok () :=
  ⟨rfl, rfl⟩

/-- C8 amended: `validate_command_args` fails with `DangerousRedirect`
only for tokens containing the spaced redirect patterns (one or two
greater-than signs, a space, then the device prefix); any vector
containing such a token fails validation; ordinary tokens free of the
forbidden patterns and within the length ceiling always pass; a
redirect written without the space is not caught. -/
theorem C8_redirect_check_characterization :
    (∀ args a, validate_command_args args =
        Except.error (ValidationError.dangerousRedirect a) →
      a ∈ args ∧ hasDangerousRedirect a = true) ∧
    (∀ args a, a ∈ args → hasDangerousRedirect a = true →
      validate_command_args args ≠ Except.ok ()) ∧
    (∀ args, (∀ a ∈ args, hasInjectionPattern a = false ∧
        hasDangerousRedirect a = false ∧ a.utf8ByteSize ≤ 1000) →
      validate_command_args args = Except.ok ()) ∧
    validate_command_args ["echo", "data > /dev/sda"] =
      Except.error (ValidationError.dangerousRedirect "data > /dev/sda") := by
  refine ⟨?_, ?_, ?_, rfl⟩
  · intro args
    induction args with
    | nil =>
      intro a h
      simp [validate_command_args] at h
    | cons arg rest ih =>
      intro a h
      unfold validate_command_args at h
      by_cases h1 : hasInjectionPattern arg = true
      · rw [if_pos h1] at h
        simp at h
      · rw [if_neg h1] at h
        by_cases h2 : hasDangerousRedirect arg = true
        · rw [if_pos h2] at h
          simp only [Except.error.injEq,
            ValidationError.dangerousRedirect.injEq] at h
          subst h
          exact ⟨List.mem_cons_self arg rest, h2⟩
        · rw [if_neg h2] at h
          by_cases h3 : 1000 < arg.utf8ByteSize
          · rw [if_pos h3] at h
            simp at h
          · rw [if_neg h3] at h
            rcases ih a h with ⟨hmem, hred⟩
            exact ⟨List.mem_cons_of_mem arg hmem, hred⟩
  · intro args
    induction args with
    | nil =>
      intro a ha
      simp at ha
    | cons arg rest ih =>
      intro a ha hred h
      unfold validate_command_args at h
      by_cases h1 : hasInjectionPattern arg = true
      · rw [if_pos h1] at h
        exact Except.noConfusion h
      · rw [if_neg h1] at h
        by_cases h2 : hasDangerousRedirect arg = true
        · rw [if_pos h2] at h
          exact Except.noConfusion h
        · rw [if_neg h2] at h
          by_cases h3 : 1000 < arg.utf8ByteSize
          · rw [if_pos h3] at h
            exact Except.noConfusion h
          · rw [if_neg h3] at h
            rcases List.mem_cons.mp ha with h4 | h5
            · subst h4
              exact h2 hred
            · exact ih a h5 hred h
  · intro args
    induction args with
    | nil => intro _; rfl
    | cons arg rest ih =>
      intro hall
      rcases hall arg (List.mem_cons_self arg rest) with ⟨hi, hr, hl⟩
      unfold validate_command_args
      rw [if_neg (by simp [hi]), if_neg (by simp [hr]),
        if_neg (Nat.not_lt.mpr hl)]
      exact ih (fun a ha => hall a (List.mem_cons_of_mem arg ha))

/-- C8 witness: concrete instantiations of the amended
characterization (ordinary tokens pass; a spaced device redirect is
rejected). -/
theorem C8_redirect_check_characterization_witness :
    validate_command_args ["update", "-y"] = Except.ok () ∧
    validate_command_args ["cat", "x > /dev/null"] ≠ Except.ok () :=
  ⟨C8_redirect_check_characterization.2.2.1 ["update", "-y"] (by decide),
   C8_redirect_check_characterization.2.1 ["cat", "x > /dev/null"]
     "x > /dev/null" (by decide) (by decide)⟩

/-- C9: the shared pid list holds a spawned child's pid exactly between
spawn registration and exit cleanup — when `run_command` spawns, the
pid is appended before any output is consumed and filtered out after
exit on every path (zero exit, non-zero exit, wait failure), and on
any non-spawning path (validation failure or spawn failure) the list
is never touched. -/
theorem C9_child_pid_lifecycle (cmd : List String) (ns : Bool)
    (m : PackageManager) (o : SpawnOutcome) (pids : List Nat) :
    ((run_command cmd ns m o pids).spawned = none →
      (run_command cmd ns m o pids).pidsMid = pids ∧
      (run_command cmd ns m o pids).pidsEnd = pids) ∧
    (∀ pid inv, (run_command cmd ns m o pids).spawned = some (pid, inv) →
      (run_command cmd ns m o pids).pidsMid = pids ++ [pid] ∧
      pid ∈ (run_command cmd ns m o pids).pidsMid ∧
      (run_command cmd ns m o pids).pidsEnd =
        (pids ++ [pid]).filter (fun p => p != pid) ∧
      pid ∉ (run_command cmd ns m o pids).pidsEnd) := by
  unfold run_command
  cases validate_manager_security m with
  | error e =>
    exact ⟨fun _ => ⟨rfl, rfl⟩, fun pid inv h => Option.noConfusion h⟩
  | ok u =>
    cases validate_command_args cmd with
    | error e =>
      exact ⟨fun _ => ⟨rfl, rfl⟩, fun pid inv h => Option.noConfusion h⟩
    | ok u2 =>
      cases o with
      | spawnFail msg =>
        exact ⟨fun _ => ⟨rfl, rfl⟩, fun pid inv h => Option.noConfusion h⟩
      | spawned pid2 outL errL w =>
        constructor
        · intro h
          exact Option.noConfusion h
        · intro pid inv h
          simp only [Option.some.injEq, Prod.mk.injEq] at h
          rcases h with ⟨hp, _⟩
          subst hp
          refine ⟨rfl, ?_, rfl, ?_⟩
          · simp
          · simp [List.mem_filter]

/-- C9 witness: the pid-list lifecycle at a concrete spawn and a
concrete spawn failure. -/
theorem C9_child_pid_lifecycle_witness :
    (run_command ["snap", "refresh"] true snap_manager
      (SpawnOutcome.spawnFail "boom") [7]).pidsMid = [7] ∧
    (run_command ["snap", "refresh"] true snap_manager
      (SpawnOutcome.spawnFail "boom") [7]).pidsEnd = [7] ∧
    42 ∈ (run_command ["snap", "refresh"] true snap_manager
      (SpawnOutcome.spawned 42 [] [] (some true)) [7]).pidsMid ∧
    42 ∉ (run_command ["snap", "refresh"] true snap_manager
      (SpawnOutcome.spawned 42 [] [] (some true)) [7]).pidsEnd := by
  have h1 := (C9_child_pid_lifecycle ["snap", "refresh"] true snap_manager
    (SpawnOutcome.spawnFail "boom") [7]).1 rfl
  have h2 := (C9_child_pid_lifecycle ["snap", "refresh"] true snap_manager
    (SpawnOutcome.spawned 42 [] [] (some true)) [7]).2 42
    ["pkexec", "--user", "root", "sh", "-c", "snap refresh"] rfl
  exact ⟨h1.1, h1.2, h2.2.1, h2.2.2.2⟩

/-- C10: a dry run never elevates — `check_updates` always calls
`run_command` with the elevation flag hard-coded to `false`, so a
spawned check invocation is the bare check-command tokens even when the
descriptor's `needs_sudo` is true; a real update of a `needs_sudo`
manager is wrapped in the pkexec invocation. -/
theorem C10_dry_run_never_elevates (m : PackageManager) (o : SpawnOutcome)
    (pids : List Nat) :
    check_updates m o pids = run_command m.check_cmd false m o pids ∧
    run_update m o pids = run_command m.update_cmd m.needs_sudo m o pids ∧
    (∀ pid outL errL w, validate_manager_security m = Except.ok () →
      validate_command_args m.check_cmd = Except.ok () →
      (check_updates m (SpawnOutcome.spawned pid outL errL w) pids).spawned =
        some (pid, m.check_cmd)) ∧
    (∀ pid outL errL w, validate_manager_security m = Except.ok () →
      validate_command_args m.update_cmd = Except.ok () →
      m.needs_sudo = true →
      (run_update m (SpawnOutcome.spawned pid outL errL w) pids).spawned =
        some (pid, ["pkexec", "--user", "root", "sh", "-c",
          String.intercalate " " m.update_cmd])) := by
  refine ⟨rfl, rfl, ?_, ?_⟩
  · intro pid outL errL w h1 h2
    simp [check_updates, run_command, h1, h2]
  · intro pid outL errL w h1 h2 h3
    simp [run_update, run_command, h1, h2, h3]

/-- C10 witness: the snap manager (which requires elevation) checked
without pkexec and updated through pkexec. -/
theorem C10_dry_run_never_elevates_witness :
    (check_updates snap_manager (SpawnOutcome.spawned 5 [] [] (some true))
      []).spawned = some (5, ["snap", "refresh", "--list"]) ∧
    (run_update snap_manager (SpawnOutcome.spawned 6 [] [] (some true))
      []).spawned =
      some (6, ["pkexec", "--user", "root", "sh", "-c", "snap refresh"]) := by
  constructor
  · exact (C10_dry_run_never_elevates snap_manager
      (SpawnOutcome.spawned 5 [] [] (some true)) []).2.2.1 5 [] []
      (some true) rfl rfl
  · exact (C10_dry_run_never_elevates snap_manager
      (SpawnOutcome.spawned 6 [] [] (some true)) []).2.2.2 6 [] []
      (some true) rfl rfl rfl

end Uptodate
